import Mathlib

/-!
Shallow embedding of the PromptLab backend, a FastAPI CRUD service for
"prompts" grouped into optional "collections", backed by in-memory storage
(`app/models.py`, `app/storage.py`, `app/utils.py`, `app/api.py`).

Modelling choices:
* timestamps are natural numbers; the wall-clock value a request observes
  (`get_current_time()`) is passed in as a parameter `now`;
* server-generated identifiers (`generate_id()`) are passed in as a
  parameter `newId`;
* Python dictionaries are insertion-ordered association lists
  (`dictGet` / `dictSet` / `dictDel` mirror `d.get`, `d[k] = v`, `del d[k]`);
* Python truthiness of `Optional[str]` values (`if prompt_data.collection_id:`)
  is `pyTruthy`: `None` and the empty string are falsy;
* Python substring tests (`q in s`) are `strIn` over the character lists;
* handlers that can raise `HTTPException` return `Except ApiError`.
-/

set_option maxHeartbeats 1000000

/-- A stored prompt record (`app/models.py`, class `Prompt`). -/
structure Prompt where
  title : String
  content : String
  description : Option String
  collection_id : Option String
  id : String
  created_at : Nat
  updated_at : Nat
deriving DecidableEq, Repr

/-- A stored collection record (`app/models.py`, class `Collection`). -/
structure Collection where
  name : String
  description : Option String
  id : String
  created_at : Nat
deriving DecidableEq, Repr

/-- Request body for `POST /prompts` (`app/models.py`, `PromptCreate`). -/
structure PromptCreate where
  title : String
  content : String
  description : Option String
  collection_id : Option String
deriving DecidableEq, Repr

/-- Request body for `PUT /prompts/{id}` (`app/models.py`, `PromptUpdate`). -/
structure PromptUpdate where
  title : String
  content : String
  description : Option String
  collection_id : Option String
deriving DecidableEq, Repr

/-- Request body for `PATCH /prompts/{id}` (`app/models.py`, `PromptPatch`).
The outer `Option` distinguishes a field absent from the request body
(`none`, excluded by `model_dump(exclude_unset=True)`) from one that was
explicitly supplied. -/
structure PromptPatch where
  title : Option String
  content : Option String
  description : Option (Option String)
  collection_id : Option (Option String)
deriving DecidableEq, Repr

/-- Request body for `POST /collections` (`app/models.py`, `CollectionCreate`). -/
structure CollectionCreate where
  name : String
  description : Option String
deriving DecidableEq, Repr

/-- Response of `GET /prompts` (`app/models.py`, `PromptList`). -/
structure PromptList where
  prompts : List Prompt
  total : Nat
deriving DecidableEq, Repr

/-- Response of `GET /collections` (`app/models.py`, `CollectionList`). -/
structure CollectionList where
  collections : List Collection
  total : Nat
deriving DecidableEq, Repr

/-- The two error kinds the handlers raise: 404 "not found" and
400 "Collection not found". -/
inductive ApiError where
  | notFound
  | invalidReference
deriving DecidableEq, Repr

/-- The two registries of `app/storage.py`, class `Storage`. -/
structure StorageState where
  prompts : List (String × Prompt)
  collections : List (String × Collection)
deriving DecidableEq, Repr

/-- A freshly constructed `Storage()`. -/
def emptyState : StorageState := { prompts := [], collections := [] }

/-- Python `d.get(k)` on an insertion-ordered dictionary. -/
def dictGet {α : Type} (l : List (String × α)) (k : String) : Option α :=
  match l with
  | [] => none
  | (k', v) :: rest => if k' = k then some v else dictGet rest k

/-- Python `d[k] = v`: replace in place if the key exists, else append. -/
def dictSet {α : Type} (l : List (String × α)) (k : String) (v : α) : List (String × α) :=
  match l with
  | [] => [(k, v)]
  | (k', v') :: rest => if k' = k then (k', v) :: rest else (k', v') :: dictSet rest k v

/-- Python `del d[k]` (for dictionaries, which hold each key at most once). -/
def dictDel {α : Type} (l : List (String × α)) (k : String) : List (String × α) :=
  match l with
  | [] => []
  | (k', v) :: rest => if k' = k then rest else (k', v) :: dictDel rest k

namespace Storage

/-- `Storage.create_prompt`: `self._prompts[prompt.id] = prompt; return prompt`. -/
def create_prompt (s : StorageState) (prompt : Prompt) : Prompt × StorageState :=
  (prompt, { s with prompts := dictSet s.prompts prompt.id prompt })

/-- `Storage.get_prompt`: `self._prompts.get(prompt_id)`. -/
def get_prompt (s : StorageState) (prompt_id : String) : Option Prompt :=
  dictGet s.prompts prompt_id

/-- `Storage.get_all_prompts`: `list(self._prompts.values())`. -/
def get_all_prompts (s : StorageState) : List Prompt :=
  s.prompts.map Prod.snd

/-- `Storage.update_prompt`: replace only if the id pre-exists, else `None`. -/
def update_prompt (s : StorageState) (prompt_id : String) (prompt : Prompt) :
    Option Prompt × StorageState :=
  if (dictGet s.prompts prompt_id).isSome then
    (some prompt, { s with prompts := dictSet s.prompts prompt_id prompt })
  else
    (none, s)

/-- `Storage.delete_prompt`: remove if present, report whether it existed. -/
def delete_prompt (s : StorageState) (prompt_id : String) : Bool × StorageState :=
  if (dictGet s.prompts prompt_id).isSome then
    (true, { s with prompts := dictDel s.prompts prompt_id })
  else
    (false, s)

/-- `Storage.create_collection`. -/
def create_collection (s : StorageState) (collection : Collection) :
    Collection × StorageState :=
  (collection, { s with collections := dictSet s.collections collection.id collection })

/-- `Storage.get_collection`: `self._collections.get(collection_id)`. -/
def get_collection (s : StorageState) (collection_id : String) : Option Collection :=
  dictGet s.collections collection_id

/-- `Storage.get_all_collections`: `list(self._collections.values())`. -/
def get_all_collections (s : StorageState) : List Collection :=
  s.collections.map Prod.snd

/-- `Storage.delete_collection`: remove if present, report whether it existed. -/
def delete_collection (s : StorageState) (collection_id : String) : Bool × StorageState :=
  if (dictGet s.collections collection_id).isSome then
    (true, { s with collections := dictDel s.collections collection_id })
  else
    (false, s)

/-- `Storage.get_prompts_by_collection`:
`[p for p in self._prompts.values() if p.collection_id == collection_id]`. -/
def get_prompts_by_collection (s : StorageState) (collection_id : String) : List Prompt :=
  (s.prompts.map Prod.snd).filter (fun p => decide (p.collection_id = some collection_id))

end Storage

/-- Python truthiness of an `Optional[str]`: `None` and `""` are falsy. -/
def pyTruthy (v : Option String) : Bool :=
  match v with
  | none => false
  | some s => !(decide (s = ""))

/-- Python `needle` is a leading run of `hay` (character lists). -/
def leadsIn : List Char → List Char → Bool
  | [], _ => true
  | _ :: _, [] => false
  | c :: cs, d :: ds => decide (c = d) && leadsIn cs ds

/-- Python `needle in hay` for character lists: contiguous-substring test. -/
def occursIn : List Char → List Char → Bool
  | needle, [] => leadsIn needle []
  | needle, d :: ds => leadsIn needle (d :: ds) || occursIn needle ds

/-- Python `needle in hay` for strings. -/
def strIn (needle hay : String) : Bool :=
  occursIn needle.data hay.data

/-- Python `s.lower()`: lower-case every character. -/
def strLower (s : String) : String :=
  ⟨s.data.map Char.toLower⟩

/-- `utils.sort_prompts_by_date`:
`sorted(prompts, key=lambda p: p.created_at, reverse=descending)`.
The `reverse=descending` argument is honoured (insertion sort with the
corresponding total order models Python's stable sort). -/
def sort_prompts_by_date (prompts : List Prompt) (descending : Bool) : List Prompt :=
  if descending then
    prompts.insertionSort (fun a b => b.created_at ≤ a.created_at)
  else
    prompts.insertionSort (fun a b => a.created_at ≤ b.created_at)

/-- `utils.filter_prompts_by_collection`:
`[p for p in prompts if p.collection_id == collection_id]`. -/
def filter_prompts_by_collection (prompts : List Prompt) (collection_id : String) :
    List Prompt :=
  prompts.filter (fun p => decide (p.collection_id = some collection_id))

/-- `utils.search_prompts`: keep prompts whose lower-cased title contains the
lower-cased query, or whose description is truthy and likewise contains it. -/
def search_prompts (prompts : List Prompt) (query : String) : List Prompt :=
  let query_lower := strLower query
  prompts.filter (fun p =>
    strIn query_lower (strLower p.title) ||
    (match p.description with
     | none => false
     | some d => !(decide (d = "")) && strIn query_lower (strLower d)))

/-- `GET /prompts` (`api.list_prompts`): optional collection filter, optional
search, then `sort_prompts_by_date(prompts, descending=True)`. -/
def list_prompts (s : StorageState) (collection_id : Option String)
    (search : Option String) : PromptList :=
  let prompts := Storage.get_all_prompts s
  let prompts := match collection_id with
    | some cid => if cid = "" then prompts else filter_prompts_by_collection prompts cid
    | none => prompts
  let prompts := match search with
    | some q => if q = "" then prompts else search_prompts prompts q
    | none => prompts
  let prompts := sort_prompts_by_date prompts true
  { prompts := prompts, total := prompts.length }

/-- `GET /prompts/{id}` (`api.get_prompt`): 404 when absent. -/
def get_prompt (s : StorageState) (prompt_id : String) : Except ApiError Prompt :=
  match Storage.get_prompt s prompt_id with
  | none => .error .notFound
  | some p => .ok p

/-- `POST /prompts` (`api.create_prompt`): when `prompt_data.collection_id`
is truthy it must resolve, else 400; on success both timestamp fields are
populated from the current time and the record is stored under its id. -/
def create_prompt (s : StorageState) (newId : String) (now : Nat)
    (prompt_data : PromptCreate) : Except ApiError (Prompt × StorageState) :=
  if pyTruthy prompt_data.collection_id &&
      !((prompt_data.collection_id.bind (fun cid => Storage.get_collection s cid)).isSome) then
    .error .invalidReference
  else
    let prompt : Prompt :=
      { title := prompt_data.title, content := prompt_data.content,
        description := prompt_data.description, collection_id := prompt_data.collection_id,
        id := newId, created_at := now, updated_at := now }
    .ok (Storage.create_prompt s prompt)

/-- `PUT /prompts/{id}` (`api.update_prompt`): 404 when absent, 400 when a
truthy `collection_id` does not resolve; otherwise replaces the body fields,
preserves `id` and `created_at`, and sets `updated_at` to the current time. -/
def update_prompt (s : StorageState) (prompt_id : String) (prompt_data : PromptUpdate)
    (now : Nat) : Except ApiError (Prompt × StorageState) :=
  match Storage.get_prompt s prompt_id with
  | none => .error .notFound
  | some existing =>
    if pyTruthy prompt_data.collection_id &&
        !((prompt_data.collection_id.bind (fun cid => Storage.get_collection s cid)).isSome) then
      .error .invalidReference
    else
      let updated_prompt : Prompt :=
        { title := prompt_data.title, content := prompt_data.content,
          description := prompt_data.description, collection_id := prompt_data.collection_id,
          id := existing.id, created_at := existing.created_at, updated_at := now }
      .ok (updated_prompt, (Storage.update_prompt s prompt_id updated_prompt).2)

/-- The merge step of `api.patch_prompt`:
`existing.model_dump()` updated with `prompt_data.model_dump(exclude_unset=True)`,
then `Prompt(**updated_data)` (so `id`, `created_at`, `updated_at` come from
the existing record). -/
def applyPatch (existing : Prompt) (prompt_data : PromptPatch) : Prompt :=
  { existing with
    title := match prompt_data.title with | none => existing.title | some t => t,
    content := match prompt_data.content with | none => existing.content | some c => c,
    description := match prompt_data.description with | none => existing.description | some d => d,
    collection_id := match prompt_data.collection_id with
      | none => existing.collection_id
      | some c => c }

/-- `PATCH /prompts/{id}` (`api.patch_prompt`): merge, then validate the
collection only when the merged `collection_id` is truthy and the prior one
is falsy or different; finally refresh `updated_at` and store. -/
def patch_prompt (s : StorageState) (prompt_id : String) (prompt_data : PromptPatch)
    (now : Nat) : Except ApiError (Prompt × StorageState) :=
  match Storage.get_prompt s prompt_id with
  | none => .error .notFound
  | some existing =>
    let updated_prompt := applyPatch existing prompt_data
    if (pyTruthy updated_prompt.collection_id &&
        (!(pyTruthy existing.collection_id) ||
          !(decide (existing.collection_id = updated_prompt.collection_id)))) &&
        !((updated_prompt.collection_id.bind (fun cid => Storage.get_collection s cid)).isSome) then
      .error .invalidReference
    else
      let stored := { updated_prompt with updated_at := now }
      .ok (stored, (Storage.update_prompt s prompt_id stored).2)

/-- `DELETE /prompts/{id}` (`api.delete_prompt`): 404 when absent. -/
def delete_prompt (s : StorageState) (prompt_id : String) : Except ApiError StorageState :=
  match Storage.delete_prompt s prompt_id with
  | (true, s') => .ok s'
  | (false, _) => .error .notFound

/-- `GET /collections` (`api.list_collections`). -/
def list_collections (s : StorageState) : CollectionList :=
  let collections := Storage.get_all_collections s
  { collections := collections, total := collections.length }

/-- `GET /collections/{id}` (`api.get_collection`): 404 when absent. -/
def get_collection (s : StorageState) (collection_id : String) :
    Except ApiError Collection :=
  match Storage.get_collection s collection_id with
  | none => .error .notFound
  | some c => .ok c

/-- `POST /collections` (`api.create_collection`). -/
def create_collection (s : StorageState) (newId : String) (now : Nat)
    (collection_data : CollectionCreate) : Collection × StorageState :=
  let collection : Collection :=
    { name := collection_data.name, description := collection_data.description,
      id := newId, created_at := now }
  Storage.create_collection s collection

/-- `DELETE /collections/{id}` (`api.delete_collection`): 404 when absent;
otherwise unlink every prompt whose `collection_id` equals the target
(clearing it and refreshing `updated_at`) and then remove the collection. -/
def delete_collection (s : StorageState) (collection_id : String) (now : Nat) :
    Except ApiError StorageState :=
  match Storage.get_collection s collection_id with
  | none => .error .notFound
  | some _ =>
    let prompts := Storage.get_prompts_by_collection s collection_id
    let s' := prompts.foldl
      (fun acc p =>
        (Storage.update_prompt acc p.id
          { p with collection_id := none, updated_at := now }).2) s
    .ok (Storage.delete_collection s' collection_id).2

/-- One API request together with the server-generated values it consumes. -/
inductive Op where
  | createPromptOp (newId : String) (now : Nat) (data : PromptCreate)
  | updatePromptOp (prompt_id : String) (now : Nat) (data : PromptUpdate)
  | patchPromptOp (prompt_id : String) (now : Nat) (data : PromptPatch)
  | deletePromptOp (prompt_id : String)
  | createCollectionOp (newId : String) (now : Nat) (data : CollectionCreate)
  | deleteCollectionOp (collection_id : String) (now : Nat)
deriving DecidableEq, Repr

/-- The storage state after one API request (a failing request, which raises
before mutating, leaves the state unchanged). -/
def runOp (s : StorageState) : Op → StorageState
  | .createPromptOp newId now d =>
    match create_prompt s newId now d with
    | .ok (_, s') => s'
    | .error _ => s
  | .updatePromptOp pid now d =>
    match update_prompt s pid d now with
    | .ok (_, s') => s'
    | .error _ => s
  | .patchPromptOp pid now d =>
    match patch_prompt s pid d now with
    | .ok (_, s') => s'
    | .error _ => s
  | .deletePromptOp pid =>
    match delete_prompt s pid with
    | .ok s' => s'
    | .error _ => s
  | .createCollectionOp newId now d => (create_collection s newId now d).2
  | .deleteCollectionOp cid now =>
    match delete_collection s cid now with
    | .ok s' => s'
    | .error _ => s

/-- The storage state after a sequence of API requests. -/
def runOps (s : StorageState) (ops : List Op) : StorageState :=
  ops.foldl runOp s

/-- Well-formedness of one registry: keys are unique and each record is
stored under its own id (both hold by construction in the Python service,
where dictionaries have unique keys and every write uses the record's id). -/
def WFmap {α : Type} (idOf : α → String) (l : List (String × α)) : Prop :=
  (l.map Prod.fst).Nodup ∧ ∀ kp ∈ l, idOf kp.2 = kp.1

/-- Well-formedness of the whole storage state. -/
def WF (s : StorageState) : Prop :=
  WFmap Prompt.id s.prompts ∧ WFmap Collection.id s.collections

/-- Referential integrity as the spec states it: every stored prompt with a
non-null `collection_id` references an existing collection. -/
def RefIntegrity (s : StorageState) : Prop :=
  ∀ kp ∈ s.prompts, ∀ c, kp.2.collection_id = some c →
    (dictGet s.collections c).isSome = true

/-- Referential integrity as the code actually maintains it: every stored
prompt with a non-null, non-empty `collection_id` references an existing
collection (the empty string is falsy in Python, so it bypasses every check). -/
def RefIntegrityNE (s : StorageState) : Prop :=
  ∀ kp ∈ s.prompts, ∀ c, kp.2.collection_id = some c → c ≠ "" →
    (dictGet s.collections c).isSome = true

/-! ### Dictionary lemmas -/

theorem dictGet_dictSet_self {α : Type} (l : List (String × α)) (k : String) (v : α) :
    dictGet (dictSet l k v) k = some v := by
  induction l with
  | nil => simp [dictGet, dictSet]
  | cons hd tl ih =>
    obtain ⟨k', v'⟩ := hd
    by_cases h : k' = k
    · simp [dictGet, dictSet, h]
    · simp [dictGet, dictSet, h, ih]

theorem dictGet_dictSet_ne {α : Type} (l : List (String × α)) (k k' : String) (v : α)
    (h : k' ≠ k) : dictGet (dictSet l k v) k' = dictGet l k' := by
  induction l with
  | nil => simp [dictGet, dictSet, Ne.symm h]
  | cons hd tl ih =>
    obtain ⟨k₀, v₀⟩ := hd
    by_cases h0 : k₀ = k
    · subst h0
      simp [dictGet, dictSet, Ne.symm h]
    · by_cases h1 : k₀ = k'
      · subst h1
        simp [dictGet, dictSet, h0]
      · simp [dictGet, dictSet, h0, h1, ih]

theorem isSome_dictGet {α : Type} (l : List (String × α)) (k : String) :
    (dictGet l k).isSome = true ↔ k ∈ l.map Prod.fst := by
  induction l with
  | nil => simp [dictGet]
  | cons hd tl ih =>
    obtain ⟨k', v'⟩ := hd
    by_cases h : k' = k
    · simp [dictGet, h]
    · simp [dictGet, h, ih, Ne.symm h]

theorem keys_dictSet_mem {α : Type} (l : List (String × α)) (k : String) (v : α)
    (h : k ∈ l.map Prod.fst) : (dictSet l k v).map Prod.fst = l.map Prod.fst := by
  induction l with
  | nil => simp at h
  | cons hd tl ih =>
    obtain ⟨k', v'⟩ := hd
    by_cases h0 : k' = k
    · simp [dictSet, h0]
    · have : k ∈ tl.map Prod.fst := by
        simp only [List.map_cons, List.mem_cons] at h
        rcases h with h | h
        · exact absurd h.symm h0
        · exact h
      simp [dictSet, h0, ih this]

theorem keys_dictSet_notmem {α : Type} (l : List (String × α)) (k : String) (v : α)
    (h : k ∉ l.map Prod.fst) :
    (dictSet l k v).map Prod.fst = l.map Prod.fst ++ [k] := by
  induction l with
  | nil => simp [dictSet]
  | cons hd tl ih =>
    obtain ⟨k', v'⟩ := hd
    simp only [List.map_cons, List.mem_cons] at h
    push_neg at h
    simp [dictSet, Ne.symm h.1, ih h.2]

theorem nodup_keys_dictSet {α : Type} (l : List (String × α)) (k : String) (v : α)
    (h : (l.map Prod.fst).Nodup) : ((dictSet l k v).map Prod.fst).Nodup := by
  by_cases hm : k ∈ l.map Prod.fst
  · rw [keys_dictSet_mem l k v hm]; exact h
  · rw [keys_dictSet_notmem l k v hm]
    simp [List.nodup_append, h, hm]

theorem mem_dictSet {α : Type} (l : List (String × α)) (k : String) (v : α)
    (x : String × α) (h : x ∈ dictSet l k v) : x ∈ l ∨ (x.1 = k ∧ x.2 = v) := by
  induction l with
  | nil =>
    simp [dictSet] at h
    subst h
    simp
  | cons hd tl ih =>
    obtain ⟨k', v'⟩ := hd
    by_cases h0 : k' = k
    · simp only [dictSet, if_pos h0, List.mem_cons] at h
      rcases h with h | h
      · subst h; right; exact ⟨h0, rfl⟩
      · left; exact List.mem_cons_of_mem _ h
    · simp only [dictSet, if_neg h0, List.mem_cons] at h
      rcases h with h | h
      · left; subst h; exact List.mem_cons_self _ _
      · rcases ih h with h | h
        · left; exact List.mem_cons_of_mem _ h
        · right; exact h

theorem dictGet_mem {α : Type} (l : List (String × α)) (k : String) (v : α)
    (h : dictGet l k = some v) : (k, v) ∈ l := by
  induction l with
  | nil => simp [dictGet] at h
  | cons hd tl ih =>
    obtain ⟨k', v'⟩ := hd
    by_cases h0 : k' = k
    · subst h0
      simp [dictGet] at h
      subst h
      exact List.mem_cons_self _ _
    · simp only [dictGet, if_neg h0] at h
      exact List.mem_cons_of_mem _ (ih h)

theorem mem_dictGet {α : Type} (l : List (String × α)) (k : String) (v : α)
    (hnd : (l.map Prod.fst).Nodup) (h : (k, v) ∈ l) : dictGet l k = some v := by
  induction l with
  | nil => simp at h
  | cons hd tl ih =>
    obtain ⟨k', v'⟩ := hd
    simp only [List.map_cons, List.nodup_cons] at hnd
    rcases List.mem_cons.1 h with h0 | h0
    · injection h0 with hk hv
      subst hk
      subst hv
      simp [dictGet]
    · have hne : k' ≠ k := by
        intro he
        subst he
        exact hnd.1 (by simpa using List.mem_map_of_mem Prod.fst h0)
      simp only [dictGet, if_neg hne]
      exact ih hnd.2 h0

theorem mem_dictDel {α : Type} (l : List (String × α)) (k : String)
    (x : String × α) (h : x ∈ dictDel l k) : x ∈ l := by
  induction l with
  | nil => simp [dictDel] at h
  | cons hd tl ih =>
    obtain ⟨k', v'⟩ := hd
    by_cases h0 : k' = k
    · simp only [dictDel, if_pos h0] at h
      exact List.mem_cons_of_mem _ h
    · simp only [dictDel, if_neg h0, List.mem_cons] at h
      rcases h with h | h
      · subst h; exact List.mem_cons_self _ _
      · exact List.mem_cons_of_mem _ (ih h)

theorem keys_dictDel_sublist {α : Type} (l : List (String × α)) (k : String) :
    ((dictDel l k).map Prod.fst).Sublist (l.map Prod.fst) := by
  induction l with
  | nil => simp [dictDel]
  | cons hd tl ih =>
    obtain ⟨k', v'⟩ := hd
    by_cases h0 : k' = k
    · simp only [dictDel, if_pos h0, List.map_cons]
      exact (List.sublist_cons_self _ _)
    · simp only [dictDel, if_neg h0, List.map_cons]
      exact ih.cons₂ _

theorem dictGet_dictDel_ne {α : Type} (l : List (String × α)) (k k' : String)
    (h : k' ≠ k) : dictGet (dictDel l k) k' = dictGet l k' := by
  induction l with
  | nil => simp [dictDel]
  | cons hd tl ih =>
    obtain ⟨k₀, v₀⟩ := hd
    by_cases h0 : k₀ = k
    · subst h0
      simp [dictDel, dictGet, Ne.symm h]
    · by_cases h1 : k₀ = k'
      · subst h1
        simp [dictDel, dictGet, h0, h]
      · simp [dictDel, dictGet, h0, h1, ih]

theorem dictGet_dictDel_self {α : Type} (l : List (String × α)) (k : String)
    (hnd : (l.map Prod.fst).Nodup) : dictGet (dictDel l k) k = none := by
  induction l with
  | nil => simp [dictDel, dictGet]
  | cons hd tl ih =>
    obtain ⟨k', v'⟩ := hd
    simp only [List.map_cons, List.nodup_cons] at hnd
    by_cases h0 : k' = k
    · subst h0
      simp only [dictDel, if_pos rfl, eq_self_iff_true, if_true]
      rcases h : dictGet tl k' with _ | v
      · rfl
      · exact absurd (by simpa using List.mem_map_of_mem Prod.fst (dictGet_mem tl k' v h))
          hnd.1
    · simp only [dictDel, if_neg h0, dictGet, if_neg h0]
      exact ih hnd.2

/-! ### Unlink-loop lemmas for `delete_collection` -/

/-- The unlinked copy of a prompt built in the loop of `api.delete_collection`. -/
def unlinkP (p : Prompt) (now : Nat) : Prompt :=
  { p with collection_id := none, updated_at := now }

/-- The unlink loop of `api.delete_collection`, as a fold over the snapshot of
prompts referencing the collection. -/
def unlinkFold (s : StorageState) (todo : List Prompt) (now : Nat) : StorageState :=
  todo.foldl (fun acc p => (Storage.update_prompt acc p.id (unlinkP p now)).2) s

theorem unlinkFold_nil (s : StorageState) (now : Nat) : unlinkFold s [] now = s := rfl

theorem unlinkFold_cons (s : StorageState) (p : Prompt) (rest : List Prompt) (now : Nat) :
    unlinkFold s (p :: rest) now =
      unlinkFold ((Storage.update_prompt s p.id (unlinkP p now)).2) rest now := rfl

theorem delete_collection_eq (s : StorageState) (cid : String) (now : Nat) (c : Collection)
    (h : Storage.get_collection s cid = some c) :
    delete_collection s cid now =
      .ok (Storage.delete_collection
        (unlinkFold s (Storage.get_prompts_by_collection s cid) now) cid).2 := by
  unfold delete_collection
  rw [h]
  rfl

theorem update_prompt_collections (s : StorageState) (pid : String) (p : Prompt) :
    ((Storage.update_prompt s pid p).2).collections = s.collections := by
  by_cases h : (dictGet s.prompts pid).isSome = true
  · simp [Storage.update_prompt, h]
  · simp [Storage.update_prompt, h]

theorem update_prompt_keys (s : StorageState) (pid : String) (p : Prompt) :
    ((Storage.update_prompt s pid p).2).prompts.map Prod.fst = s.prompts.map Prod.fst := by
  by_cases h : (dictGet s.prompts pid).isSome = true
  · simp only [Storage.update_prompt, h, if_true]
    exact keys_dictSet_mem _ _ _ ((isSome_dictGet _ _).1 h)
  · simp [Storage.update_prompt, h]

theorem update_prompt_get_ne (s : StorageState) (pid k : String) (p : Prompt)
    (h : k ≠ pid) :
    dictGet ((Storage.update_prompt s pid p).2).prompts k = dictGet s.prompts k := by
  by_cases h0 : (dictGet s.prompts pid).isSome = true
  · simp only [Storage.update_prompt, h0, if_true]
    exact dictGet_dictSet_ne _ _ _ _ h
  · simp [Storage.update_prompt, h0]

theorem update_prompt_get_self (s : StorageState) (pid : String) (p : Prompt)
    (h : (dictGet s.prompts pid).isSome = true) :
    dictGet ((Storage.update_prompt s pid p).2).prompts pid = some p := by
  simp only [Storage.update_prompt, h, if_true]
  exact dictGet_dictSet_self _ _ _

theorem update_prompt_get_isSome (s : StorageState) (pid k : String) (p : Prompt) :
    (dictGet ((Storage.update_prompt s pid p).2).prompts k).isSome
      = (dictGet s.prompts k).isSome := by
  by_cases h0 : (dictGet s.prompts pid).isSome = true
  · by_cases h : k = pid
    · subst h
      rw [update_prompt_get_self _ _ _ h0, h0]
      rfl
    · rw [update_prompt_get_ne _ _ _ _ h]
  · simp [Storage.update_prompt, h0]

theorem unlinkFold_collections (todo : List Prompt) (s : StorageState) (now : Nat) :
    (unlinkFold s todo now).collections = s.collections := by
  induction todo generalizing s with
  | nil => rfl
  | cons p rest ih => rw [unlinkFold_cons, ih, update_prompt_collections]

theorem unlinkFold_keys (todo : List Prompt) (s : StorageState) (now : Nat) :
    (unlinkFold s todo now).prompts.map Prod.fst = s.prompts.map Prod.fst := by
  induction todo generalizing s with
  | nil => rfl
  | cons p rest ih => rw [unlinkFold_cons, ih, update_prompt_keys]

theorem unlinkFold_get_ne (todo : List Prompt) (s : StorageState) (now : Nat) (k : String)
    (h : ∀ p ∈ todo, p.id ≠ k) :
    dictGet (unlinkFold s todo now).prompts k = dictGet s.prompts k := by
  induction todo generalizing s with
  | nil => rfl
  | cons p rest ih =>
    rw [unlinkFold_cons, ih _ (fun q hq => h q (List.mem_cons_of_mem _ hq)),
      update_prompt_get_ne _ _ _ _ (fun he => h p (List.mem_cons_self _ _) he.symm)]

theorem unlinkFold_get_hit (todo : List Prompt) (s : StorageState) (now : Nat) (p : Prompt)
    (hnd : (todo.map Prompt.id).Nodup) (hp : p ∈ todo)
    (hs : (dictGet s.prompts p.id).isSome = true) :
    dictGet (unlinkFold s todo now).prompts p.id = some (unlinkP p now) := by
  induction todo generalizing s with
  | nil => simp at hp
  | cons q rest ih =>
    simp only [List.map_cons, List.nodup_cons] at hnd
    rcases List.mem_cons.1 hp with h0 | h0
    · subst h0
      rw [unlinkFold_cons]
      have h2 : ∀ q' ∈ rest, q'.id ≠ p.id := by
        intro q' hq' he
        exact hnd.1 (he ▸ List.mem_map_of_mem Prompt.id hq')
      rw [unlinkFold_get_ne _ _ _ _ h2, update_prompt_get_self _ _ _ hs]
    · rw [unlinkFold_cons]
      exact ih _ hnd.2 h0 (by rw [update_prompt_get_isSome]; exact hs)

theorem mem_todo_isSome (s : StorageState) (cid : String)
    (hWFp : WFmap Prompt.id s.prompts) :
    ∀ p ∈ Storage.get_prompts_by_collection s cid,
      (dictGet s.prompts p.id).isSome = true := by
  intro p hp
  have hv : p ∈ s.prompts.map Prod.snd := List.mem_of_mem_filter hp
  obtain ⟨kp, hkp, hkp2⟩ := List.mem_map.1 hv
  rw [← hkp2, hWFp.2 kp hkp, isSome_dictGet]
  exact List.mem_map_of_mem Prod.fst hkp

theorem todo_ids_nodup (s : StorageState) (cid : String)
    (hWFp : WFmap Prompt.id s.prompts) :
    ((Storage.get_prompts_by_collection s cid).map Prompt.id).Nodup := by
  have h1 : (s.prompts.map Prod.snd).map Prompt.id = s.prompts.map Prod.fst := by
    rw [List.map_map]
    exact List.map_congr_left (fun kp hkp => hWFp.2 kp hkp)
  have h2 : ((Storage.get_prompts_by_collection s cid).map Prompt.id).Sublist
      ((s.prompts.map Prod.snd).map Prompt.id) :=
    (List.filter_sublist _).map Prompt.id
  rw [h1] at h2
  exact hWFp.1.sublist h2

theorem mem_todo_of_get (s : StorageState) (cid k : String) (p : Prompt)
    (hk : dictGet s.prompts k = some p) (hc : p.collection_id = some cid) :
    p ∈ Storage.get_prompts_by_collection s cid := by
  apply List.mem_filter.2
  constructor
  · exact List.mem_map_of_mem Prod.snd (dictGet_mem _ _ _ hk)
  · simpa using hc

theorem get_of_mem_values (s : StorageState) (hWFp : WFmap Prompt.id s.prompts)
    (q : Prompt) (hq : q ∈ s.prompts.map Prod.snd) :
    dictGet s.prompts q.id = some q := by
  obtain ⟨kq, hkq, hkq2⟩ := List.mem_map.1 hq
  have h1 : dictGet s.prompts kq.1 = some kq.2 :=
    mem_dictGet _ _ _ hWFp.1 (by rwa [Prod.mk.eta])
  rw [← hkq2, hWFp.2 kq hkq]
  exact h1

theorem unlink_char (s : StorageState) (cid : String) (now : Nat)
    (hWFp : WFmap Prompt.id s.prompts) (k : String) :
    dictGet (unlinkFold s (Storage.get_prompts_by_collection s cid) now).prompts k
      = (dictGet s.prompts k).map
          (fun p => if p.collection_id = some cid then unlinkP p now else p) := by
  rcases hk : dictGet s.prompts k with _ | p
  · have hne : ∀ p' ∈ Storage.get_prompts_by_collection s cid, p'.id ≠ k := by
      intro p' hp' he
      have h1 := mem_todo_isSome s cid hWFp p' hp'
      rw [he, hk] at h1
      simp at h1
    rw [unlinkFold_get_ne _ _ _ _ hne, hk]
    rfl
  · by_cases hc : p.collection_id = some cid
    · have hp : p ∈ Storage.get_prompts_by_collection s cid :=
        mem_todo_of_get s cid k p hk hc
      have hid : p.id = k := hWFp.2 (k, p) (dictGet_mem _ _ _ hk)
      have hs2 : (dictGet s.prompts p.id).isSome = true := by rw [hid, hk]; rfl
      have h3 := unlinkFold_get_hit _ s now p (todo_ids_nodup s cid hWFp) hp hs2
      rw [hid] at h3
      rw [h3]
      simp [hc]
    · have hne : ∀ q ∈ Storage.get_prompts_by_collection s cid, q.id ≠ k := by
        intro q hq he
        have hg : dictGet s.prompts q.id = some q :=
          get_of_mem_values s hWFp q (List.mem_of_mem_filter hq)
        rw [he, hk] at hg
        injection hg with hpq
        have hqc : q.collection_id = some cid := by
          simpa using (List.mem_filter.1 hq).2
        cases hpq
        exact hc hqc
      rw [unlinkFold_get_ne _ _ _ _ hne, hk]
      simp [hc]

theorem delete_collection_state (s : StorageState) (cid : String) (now : Nat)
    (c : Collection) (hc : Storage.get_collection s cid = some c) (hWF : WF s) :
    ∃ s', delete_collection s cid now = .ok s' ∧
      (∀ k, dictGet s'.prompts k = (dictGet s.prompts k).map
          (fun p => if p.collection_id = some cid then unlinkP p now else p)) ∧
      s'.collections = dictDel s.collections cid ∧
      s'.prompts.map Prod.fst = s.prompts.map Prod.fst := by
  have hcoll := unlinkFold_collections (Storage.get_prompts_by_collection s cid) s now
  have hg : (dictGet (unlinkFold s (Storage.get_prompts_by_collection s cid) now).collections
      cid).isSome = true := by
    rw [hcoll]
    have h1 : dictGet s.collections cid = some c := hc
    rw [h1]
    rfl
  have hdel : (Storage.delete_collection
      (unlinkFold s (Storage.get_prompts_by_collection s cid) now) cid).2
      = { prompts := (unlinkFold s (Storage.get_prompts_by_collection s cid) now).prompts,
          collections := dictDel
            (unlinkFold s (Storage.get_prompts_by_collection s cid) now).collections cid } := by
    simp [Storage.delete_collection, hg]
  refine ⟨_, delete_collection_eq s cid now c hc, ?_, ?_, ?_⟩
  · intro k
    rw [hdel]
    exact unlink_char s cid now hWF.1 k
  · rw [hdel, hcoll]
  · rw [hdel]
    exact unlinkFold_keys _ _ _

/-! ### Invariant machinery -/

/-- The combined invariant: well-formed registries plus referential
integrity for non-empty references. -/
def StInv (s : StorageState) : Prop := WF s ∧ RefIntegrityNE s

theorem isSome_dictGet_dictSet {α : Type} (l : List (String × α)) (k k' : String) (v : α)
    (h : (dictGet l k').isSome = true) : (dictGet (dictSet l k v) k').isSome = true := by
  by_cases he : k' = k
  · subst he
    rw [dictGet_dictSet_self]
    rfl
  · rw [dictGet_dictSet_ne _ _ _ _ he]
    exact h

theorem WFmap_dictSet {α : Type} (idOf : α → String) (l : List (String × α)) (k : String)
    (v : α) (hWF : WFmap idOf l) (hid : idOf v = k) : WFmap idOf (dictSet l k v) := by
  constructor
  · exact nodup_keys_dictSet _ _ _ hWF.1
  · intro kp hkp
    rcases mem_dictSet _ _ _ _ hkp with h | h
    · exact hWF.2 kp h
    · rw [h.2, hid, ← h.1]

theorem WFmap_dictDel {α : Type} (idOf : α → String) (l : List (String × α)) (k : String)
    (hWF : WFmap idOf l) : WFmap idOf (dictDel l k) :=
  ⟨hWF.1.sublist (keys_dictDel_sublist l k),
   fun kp hkp => hWF.2 kp (mem_dictDel _ _ _ hkp)⟩

theorem RefNE_dictSet_prompts (s : StorageState) (k : String) (p : Prompt)
    (hR : RefIntegrityNE s)
    (hp : ∀ c, p.collection_id = some c → c ≠ "" →
      (dictGet s.collections c).isSome = true) :
    RefIntegrityNE { s with prompts := dictSet s.prompts k p } := by
  intro kp hkp c hc hcne
  show (dictGet s.collections c).isSome = true
  rcases mem_dictSet _ _ _ _ hkp with h | h
  · exact hR kp h c hc hcne
  · rw [h.2] at hc
    exact hp c hc hcne

theorem update_prompt_inv (s : StorageState) (pid : String) (p : Prompt)
    (hInv : StInv s) (hid : p.id = pid)
    (hp : ∀ c, p.collection_id = some c → c ≠ "" →
      (dictGet s.collections c).isSome = true) :
    StInv ((Storage.update_prompt s pid p).2) := by
  by_cases h0 : (dictGet s.prompts pid).isSome = true
  · simp only [Storage.update_prompt, h0, if_true]
    exact ⟨⟨WFmap_dictSet Prompt.id s.prompts pid p hInv.1.1 hid, hInv.1.2⟩,
      RefNE_dictSet_prompts s pid p hInv.2 hp⟩
  · simp only [Storage.update_prompt, h0, Bool.false_eq_true, if_false]
    exact hInv

theorem check_pass (s : StorageState) (cid? : Option String)
    (h : ¬ ((pyTruthy cid? &&
      !((cid?.bind (fun cid => Storage.get_collection s cid)).isSome)) = true))
    (c : String) (hc : cid? = some c) (hcne : c ≠ "") :
    (dictGet s.collections c).isSome = true := by
  subst hc
  simp [pyTruthy, hcne, Storage.get_collection] at h
  exact Option.isSome_iff_ne_none.2 h


/-! ### Characterizations of the API handlers -/

/-- The record built by `api.create_prompt` on success. -/
def newPrompt (newId : String) (now : Nat) (d : PromptCreate) : Prompt :=
  { title := d.title, content := d.content, description := d.description,
    collection_id := d.collection_id, id := newId, created_at := now, updated_at := now }

/-- The record built by `api.update_prompt` on success. -/
def putPrompt (existing : Prompt) (now : Nat) (d : PromptUpdate) : Prompt :=
  { title := d.title, content := d.content, description := d.description,
    collection_id := d.collection_id, id := existing.id, created_at := existing.created_at,
    updated_at := now }

/-- The record stored by `api.patch_prompt` on success. -/
def patchedPrompt (existing : Prompt) (d : PromptPatch) (now : Nat) : Prompt :=
  { applyPatch existing d with updated_at := now }

/-- The record built by `api.create_collection`. -/
def newCollection (newId : String) (now : Nat) (d : CollectionCreate) : Collection :=
  { name := d.name, description := d.description, id := newId, created_at := now }

theorem create_prompt_err_eq (s : StorageState) (newId : String) (now : Nat)
    (d : PromptCreate)
    (h : (pyTruthy d.collection_id &&
      !((d.collection_id.bind (fun cid => Storage.get_collection s cid)).isSome)) = true) :
    create_prompt s newId now d = .error .invalidReference := by
  unfold create_prompt
  exact if_pos h

theorem create_prompt_ok_eq (s : StorageState) (newId : String) (now : Nat)
    (d : PromptCreate)
    (h : ¬ ((pyTruthy d.collection_id &&
      !((d.collection_id.bind (fun cid => Storage.get_collection s cid)).isSome)) = true)) :
    create_prompt s newId now d = .ok (newPrompt newId now d,
      { s with prompts := dictSet s.prompts newId (newPrompt newId now d) }) := by
  unfold create_prompt
  exact if_neg h

theorem update_prompt_notFound_eq (s : StorageState) (pid : String) (d : PromptUpdate)
    (now : Nat) (h : Storage.get_prompt s pid = none) :
    update_prompt s pid d now = .error .notFound := by
  unfold update_prompt
  rw [h]

theorem update_prompt_err_eq (s : StorageState) (pid : String) (d : PromptUpdate)
    (now : Nat) (existing : Prompt) (hex : Storage.get_prompt s pid = some existing)
    (h : (pyTruthy d.collection_id &&
      !((d.collection_id.bind (fun cid => Storage.get_collection s cid)).isSome)) = true) :
    update_prompt s pid d now = .error .invalidReference := by
  unfold update_prompt
  rw [hex]
  exact if_pos h

theorem update_prompt_ok_eq (s : StorageState) (pid : String) (d : PromptUpdate)
    (now : Nat) (existing : Prompt) (hex : Storage.get_prompt s pid = some existing)
    (h : ¬ ((pyTruthy d.collection_id &&
      !((d.collection_id.bind (fun cid => Storage.get_collection s cid)).isSome)) = true)) :
    update_prompt s pid d now = .ok (putPrompt existing now d,
      (Storage.update_prompt s pid (putPrompt existing now d)).2) := by
  unfold update_prompt
  rw [hex]
  exact if_neg h

theorem patch_prompt_notFound_eq (s : StorageState) (pid : String) (d : PromptPatch)
    (now : Nat) (h : Storage.get_prompt s pid = none) :
    patch_prompt s pid d now = .error .notFound := by
  unfold patch_prompt
  rw [h]

theorem patch_prompt_err_eq (s : StorageState) (pid : String) (d : PromptPatch)
    (now : Nat) (existing : Prompt) (hex : Storage.get_prompt s pid = some existing)
    (h : ((pyTruthy (applyPatch existing d).collection_id &&
      (!(pyTruthy existing.collection_id) ||
        !(decide (existing.collection_id = (applyPatch existing d).collection_id)))) &&
      !(((applyPatch existing d).collection_id.bind
        (fun cid => Storage.get_collection s cid)).isSome)) = true) :
    patch_prompt s pid d now = .error .invalidReference := by
  unfold patch_prompt
  rw [hex]
  exact if_pos h

theorem patch_prompt_ok_eq (s : StorageState) (pid : String) (d : PromptPatch)
    (now : Nat) (existing : Prompt) (hex : Storage.get_prompt s pid = some existing)
    (h : ¬ (((pyTruthy (applyPatch existing d).collection_id &&
      (!(pyTruthy existing.collection_id) ||
        !(decide (existing.collection_id = (applyPatch existing d).collection_id)))) &&
      !(((applyPatch existing d).collection_id.bind
        (fun cid => Storage.get_collection s cid)).isSome)) = true)) :
    patch_prompt s pid d now = .ok (patchedPrompt existing d now,
      (Storage.update_prompt s pid (patchedPrompt existing d now)).2) := by
  unfold patch_prompt
  rw [hex]
  exact if_neg h

theorem delete_prompt_present (s : StorageState) (pid : String)
    (h : (dictGet s.prompts pid).isSome = true) :
    delete_prompt s pid = .ok { s with prompts := dictDel s.prompts pid } := by
  unfold delete_prompt Storage.delete_prompt
  rw [if_pos h]

theorem delete_prompt_absent (s : StorageState) (pid : String)
    (h : ¬ ((dictGet s.prompts pid).isSome = true)) :
    delete_prompt s pid = .error .notFound := by
  unfold delete_prompt Storage.delete_prompt
  rw [if_neg h]

theorem delete_collection_notFound_eq (s : StorageState) (cid : String) (now : Nat)
    (h : Storage.get_collection s cid = none) :
    delete_collection s cid now = .error .notFound := by
  unfold delete_collection
  rw [h]

theorem stInv_runOp (s : StorageState) (op : Op) (hInv : StInv s) : StInv (runOp s op) := by
  obtain ⟨⟨hWFp, hWFc⟩, hR⟩ := hInv
  cases op with
  | createPromptOp newId now d =>
    by_cases hcheck : (pyTruthy d.collection_id &&
        !((d.collection_id.bind (fun cid => Storage.get_collection s cid)).isSome)) = true
    · simp only [runOp]
      rw [create_prompt_err_eq s newId now d hcheck]
      exact ⟨⟨hWFp, hWFc⟩, hR⟩
    · simp only [runOp]
      rw [create_prompt_ok_eq s newId now d hcheck]
      exact ⟨⟨WFmap_dictSet Prompt.id s.prompts newId _ hWFp rfl, hWFc⟩,
        RefNE_dictSet_prompts s newId _ hR
          (fun c hc hcne => check_pass s d.collection_id hcheck c hc hcne)⟩
  | updatePromptOp pid now d =>
    rcases hex : Storage.get_prompt s pid with _ | existing
    · simp only [runOp]
      rw [update_prompt_notFound_eq s pid d now hex]
      exact ⟨⟨hWFp, hWFc⟩, hR⟩
    · by_cases hcheck : (pyTruthy d.collection_id &&
          !((d.collection_id.bind (fun cid => Storage.get_collection s cid)).isSome)) = true
      · simp only [runOp]
        rw [update_prompt_err_eq s pid d now existing hex hcheck]
        exact ⟨⟨hWFp, hWFc⟩, hR⟩
      · have hid : existing.id = pid := hWFp.2 (pid, existing) (dictGet_mem _ _ _ hex)
        simp only [runOp]
        rw [update_prompt_ok_eq s pid d now existing hex hcheck]
        exact update_prompt_inv s pid (putPrompt existing now d) ⟨⟨hWFp, hWFc⟩, hR⟩ hid
          (fun c hc hcne => check_pass s d.collection_id hcheck c hc hcne)
  | patchPromptOp pid now d =>
    rcases hex : Storage.get_prompt s pid with _ | existing
    · simp only [runOp]
      rw [patch_prompt_notFound_eq s pid d now hex]
      exact ⟨⟨hWFp, hWFc⟩, hR⟩
    · by_cases herr : ((pyTruthy (applyPatch existing d).collection_id &&
          (!(pyTruthy existing.collection_id) ||
            !(decide (existing.collection_id = (applyPatch existing d).collection_id)))) &&
          !(((applyPatch existing d).collection_id.bind
            (fun cid => Storage.get_collection s cid)).isSome)) = true
      · simp only [runOp]
        rw [patch_prompt_err_eq s pid d now existing hex herr]
        exact ⟨⟨hWFp, hWFc⟩, hR⟩
      · have hid2 : existing.id = pid := hWFp.2 (pid, existing) (dictGet_mem _ _ _ hex)
        simp only [runOp]
        rw [patch_prompt_ok_eq s pid d now existing hex herr]
        apply update_prompt_inv s pid (patchedPrompt existing d now) ⟨⟨hWFp, hWFc⟩, hR⟩ hid2
        intro c hc hcne
        rcases hB : (dictGet s.collections c).isSome with _ | _
        · exfalso
          have hc2 : (applyPatch existing d).collection_id = some c := hc
          have hA1 : pyTruthy (applyPatch existing d).collection_id = true := by
            rw [hc2]
            simp [pyTruthy, hcne]
          have hBbind : (((applyPatch existing d).collection_id.bind
              (fun cid => Storage.get_collection s cid)).isSome) = false := by
            rw [hc2]
            simpa [Storage.get_collection] using hB
          by_cases hA2 : (!(pyTruthy existing.collection_id) ||
              !(decide (existing.collection_id = (applyPatch existing d).collection_id))) = true
          · exact herr (by simp [hA1, hA2, hBbind])
          · have h2 : existing.collection_id = (applyPatch existing d).collection_id := by
              simp at hA2
              exact hA2.2
            have h3 : (dictGet s.collections c).isSome = true := by
              apply hR (pid, existing) (dictGet_mem _ _ _ hex) c _ hcne
              show existing.collection_id = some c
              rw [h2]
              exact hc2
            simp [h3] at hB
        · rfl
  | deletePromptOp pid =>
    by_cases hp : (dictGet s.prompts pid).isSome = true
    · simp only [runOp]
      rw [delete_prompt_present s pid hp]
      exact ⟨⟨WFmap_dictDel Prompt.id s.prompts pid hWFp, hWFc⟩,
        fun kp hkp c hc hcne => hR kp (mem_dictDel _ _ _ hkp) c hc hcne⟩
    · simp only [runOp]
      rw [delete_prompt_absent s pid hp]
      exact ⟨⟨hWFp, hWFc⟩, hR⟩
  | createCollectionOp newId now d =>
    simp only [runOp]
    exact ⟨⟨hWFp, WFmap_dictSet Collection.id s.collections newId _ hWFc rfl⟩,
      fun kp hkp c hc hcne => isSome_dictGet_dictSet _ _ _ _ (hR kp hkp c hc hcne)⟩
  | deleteCollectionOp cid now =>
    rcases hcol : Storage.get_collection s cid with _ | c
    · simp only [runOp]
      rw [delete_collection_notFound_eq s cid now hcol]
      exact ⟨⟨hWFp, hWFc⟩, hR⟩
    · obtain ⟨s', hs', hchar, hcolls, hkeys⟩ :=
        delete_collection_state s cid now c hcol ⟨hWFp, hWFc⟩
      simp only [runOp]
      rw [hs']
      have hnd' : (s'.prompts.map Prod.fst).Nodup := by
        rw [hkeys]
        exact hWFp.1
      refine ⟨⟨⟨hnd', ?_⟩, ?_⟩, ?_⟩
      · intro kp hkp
        have hget : dictGet s'.prompts kp.1 = some kp.2 := mem_dictGet _ _ _ hnd' hkp
        rw [hchar kp.1] at hget
        rcases hg0 : dictGet s.prompts kp.1 with _ | p0
        · rw [hg0] at hget
          simp at hget
        · rw [hg0] at hget
          simp only [Option.map_some', Option.some.injEq] at hget
          by_cases hp0 : p0.collection_id = some cid
          · rw [if_pos hp0] at hget
            rw [← hget]
            have h4 := hWFp.2 (kp.1, p0) (dictGet_mem _ _ _ hg0)
            simpa [unlinkP] using h4
          · rw [if_neg hp0] at hget
            rw [← hget]
            exact hWFp.2 (kp.1, p0) (dictGet_mem _ _ _ hg0)
      · rw [hcolls]
        exact WFmap_dictDel Collection.id s.collections cid hWFc
      · intro kp hkp c' hc' hcne
        have hget : dictGet s'.prompts kp.1 = some kp.2 := mem_dictGet _ _ _ hnd' hkp
        rw [hchar kp.1] at hget
        rcases hg0 : dictGet s.prompts kp.1 with _ | p0
        · rw [hg0] at hget
          simp at hget
        · rw [hg0] at hget
          simp only [Option.map_some', Option.some.injEq] at hget
          by_cases hp0 : p0.collection_id = some cid
          · rw [if_pos hp0] at hget
            rw [← hget] at hc'
            simp [unlinkP] at hc'
          · rw [if_neg hp0] at hget
            rw [← hget] at hc'
            have hcne2 : c' ≠ cid := by
              intro he
              subst he
              exact hp0 hc'
            rw [hcolls, dictGet_dictDel_ne s.collections cid c' hcne2]
            exact hR (kp.1, p0) (dictGet_mem _ _ _ hg0) c' hc' hcne

theorem stInv_runOps_from (ops : List Op) : ∀ s, StInv s → StInv (runOps s ops) := by
  induction ops with
  | nil => exact fun _ hs => hs
  | cons op rest ih => exact fun s hs => ih (runOp s op) (stInv_runOp s op hs)

theorem stInv_empty : StInv emptyState := by
  refine ⟨⟨⟨List.nodup_nil, ?_⟩, ⟨List.nodup_nil, ?_⟩⟩, ?_⟩
  · intro kp hkp
    simp [emptyState] at hkp
  · intro kp hkp
    simp [emptyState] at hkp
  · intro kp hkp c hc hcne
    simp [emptyState] at hkp

/-! ### Sample data for witnesses -/

/-- Sample prompt stored under key "pa". -/
def pA : Prompt :=
  { title := "Alpha", content := "body a", description := some "first",
    collection_id := none, id := "pa", created_at := 1, updated_at := 1 }

/-- Sample prompt stored under key "pb", linked to collection "c1". -/
def pB : Prompt :=
  { title := "Beta", content := "body b", description := none,
    collection_id := some "c1", id := "pb", created_at := 2, updated_at := 2 }

/-- Sample collection stored under key "c1". -/
def colC : Collection :=
  { name := "Main", description := none, id := "c1", created_at := 0 }

/-- Sample storage state with two prompts and one collection. -/
def st1 : StorageState :=
  { prompts := [("pa", pA), ("pb", pB)], collections := [("c1", colC)] }

/-- Create-request body with an empty-string collection reference. -/
def cexPromptData : PromptCreate :=
  { title := "t", content := "c", description := none, collection_id := some "" }

/-- Create-request body with no collection reference. -/
def dplain : PromptCreate :=
  { title := "T", content := "C", description := none, collection_id := none }

/-! ### Claim theorems -/

instance : IsTotal Prompt (fun a b => b.created_at ≤ a.created_at) :=
  ⟨fun a b => Nat.le_total b.created_at a.created_at⟩

instance : IsTrans Prompt (fun a b => b.created_at ≤ a.created_at) :=
  ⟨fun _ _ _ hab hbc => Nat.le_trans hbc hab⟩

/-- Claim C1: when the stored prompts have pairwise distinct `created_at`
values, `GET /prompts` (no filters) returns exactly those prompts (a
permutation) in strictly decreasing `created_at` order, newest first. -/
theorem c1_list_newest_first (s : StorageState)
    (hdist : (s.prompts.map Prod.snd).Pairwise (fun a b => a.created_at ≠ b.created_at)) :
    ((list_prompts s none none).prompts).Pairwise (fun a b => b.created_at < a.created_at) ∧
      ((list_prompts s none none).prompts).Perm (s.prompts.map Prod.snd) := by
  have heq : (list_prompts s none none).prompts
      = (s.prompts.map Prod.snd).insertionSort (fun a b => b.created_at ≤ a.created_at) := rfl
  rw [heq]
  have hperm := List.perm_insertionSort (fun a b => b.created_at ≤ a.created_at)
    (s.prompts.map Prod.snd)
  have hsorted := List.sorted_insertionSort (fun a b => b.created_at ≤ a.created_at)
    (s.prompts.map Prod.snd)
  have hne : ((s.prompts.map Prod.snd).insertionSort
      (fun a b => b.created_at ≤ a.created_at)).Pairwise
      (fun a b => a.created_at ≠ b.created_at) :=
    (List.Perm.pairwise_iff (fun {_ _} h => Ne.symm h) hperm).2 hdist
  refine ⟨(List.Pairwise.and hsorted hne).imp ?_, hperm⟩
  intro a b h
  exact lt_of_le_of_ne h.1 (Ne.symm h.2)

theorem c1_list_newest_first_witness :
    ((list_prompts st1 none none).prompts).Pairwise (fun a b => b.created_at < a.created_at) ∧
      ((list_prompts st1 none none).prompts).Perm (st1.prompts.map Prod.snd) :=
  c1_list_newest_first st1 (by decide)

/-- Claim C2: a successful create populates `id` with the generated id and
both timestamps with the request time, so `created_at = updated_at`. -/
theorem c2_create_fields (s : StorageState) (newId : String) (now : Nat)
    (d : PromptCreate) (r : Prompt) (s' : StorageState)
    (h : create_prompt s newId now d = .ok (r, s')) :
    r.id = newId ∧ r.created_at = now ∧ r.updated_at = now ∧
      r.created_at = r.updated_at := by
  by_cases hcheck : (pyTruthy d.collection_id &&
      !((d.collection_id.bind (fun cid => Storage.get_collection s cid)).isSome)) = true
  · rw [create_prompt_err_eq s newId now d hcheck] at h
    cases h
  · rw [create_prompt_ok_eq s newId now d hcheck] at h
    injection h with h1
    injection h1 with hr hs
    rw [← hr]
    exact ⟨rfl, rfl, rfl, rfl⟩

theorem c2_create_fields_witness :
    (newPrompt "p1" 5 dplain).id = "p1" ∧ (newPrompt "p1" 5 dplain).created_at = 5 ∧
      (newPrompt "p1" 5 dplain).updated_at = 5 ∧
      (newPrompt "p1" 5 dplain).created_at = (newPrompt "p1" 5 dplain).updated_at :=
  c2_create_fields emptyState "p1" 5 dplain (newPrompt "p1" 5 dplain)
    { prompts := [("p1", newPrompt "p1" 5 dplain)], collections := [] } (by rfl)

/-- Full-update body used in witnesses. -/
def du0 : PromptUpdate :=
  { title := "N", content := "CC", description := none, collection_id := none }

/-- Partial-update body (title only) used in witnesses. -/
def dp0 : PromptPatch :=
  { title := some "M", content := none, description := none, collection_id := none }

/-- Claim C3: a successful `PUT` or `PATCH` of a stored prompt stores a
record whose `updated_at` is the request time (hence strictly above the
prior `updated_at` whenever the clock has advanced), with `id` and
`created_at` unchanged. -/
theorem c3_update_refreshes (s : StorageState) (pid : String) (now : Nat) (ex : Prompt)
    (du : PromptUpdate) (dp : PromptPatch) (ru rp : Prompt) (su sp : StorageState)
    (hex : Storage.get_prompt s pid = some ex) (hclock : ex.updated_at < now)
    (hup : update_prompt s pid du now = .ok (ru, su))
    (hpa : patch_prompt s pid dp now = .ok (rp, sp)) :
    (Storage.get_prompt su pid = some ru ∧ ex.updated_at < ru.updated_at ∧
      ru.id = ex.id ∧ ru.created_at = ex.created_at) ∧
    (Storage.get_prompt sp pid = some rp ∧ ex.updated_at < rp.updated_at ∧
      rp.id = ex.id ∧ rp.created_at = ex.created_at) := by
  have hpresent : (dictGet s.prompts pid).isSome = true := by
    have h1 : dictGet s.prompts pid = some ex := hex
    rw [h1]
    rfl
  constructor
  · by_cases hcheck : (pyTruthy du.collection_id &&
        !((du.collection_id.bind (fun cid => Storage.get_collection s cid)).isSome)) = true
    · rw [update_prompt_err_eq s pid du now ex hex hcheck] at hup
      cases hup
    · rw [update_prompt_ok_eq s pid du now ex hex hcheck] at hup
      injection hup with h1
      injection h1 with hr hs
      subst hr
      subst hs
      exact ⟨update_prompt_get_self s pid _ hpresent, hclock, rfl, rfl⟩
  · by_cases herr : ((pyTruthy (applyPatch ex dp).collection_id &&
        (!(pyTruthy ex.collection_id) ||
          !(decide (ex.collection_id = (applyPatch ex dp).collection_id)))) &&
        !(((applyPatch ex dp).collection_id.bind
          (fun cid => Storage.get_collection s cid)).isSome)) = true
    · rw [patch_prompt_err_eq s pid dp now ex hex herr] at hpa
      cases hpa
    · rw [patch_prompt_ok_eq s pid dp now ex hex herr] at hpa
      injection hpa with h1
      injection h1 with hr hs
      subst hr
      subst hs
      exact ⟨update_prompt_get_self s pid _ hpresent, hclock, rfl, rfl⟩

theorem c3_update_refreshes_witness :
    (Storage.get_prompt (Storage.update_prompt st1 "pa" (putPrompt pA 10 du0)).2 "pa"
        = some (putPrompt pA 10 du0) ∧
      pA.updated_at < (putPrompt pA 10 du0).updated_at ∧
      (putPrompt pA 10 du0).id = pA.id ∧
      (putPrompt pA 10 du0).created_at = pA.created_at) ∧
    (Storage.get_prompt (Storage.update_prompt st1 "pa" (patchedPrompt pA dp0 10)).2 "pa"
        = some (patchedPrompt pA dp0 10) ∧
      pA.updated_at < (patchedPrompt pA dp0 10).updated_at ∧
      (patchedPrompt pA dp0 10).id = pA.id ∧
      (patchedPrompt pA dp0 10).created_at = pA.created_at) :=
  c3_update_refreshes st1 "pa" 10 pA du0 dp0 (putPrompt pA 10 du0)
    (patchedPrompt pA dp0 10) (Storage.update_prompt st1 "pa" (putPrompt pA 10 du0)).2
    (Storage.update_prompt st1 "pa" (patchedPrompt pA dp0 10)).2 rfl (by decide) rfl rfl

/-- Claim C4 (amended): in every storage state reachable from the empty
state by API requests, every stored prompt whose `collection_id` is
non-null and non-empty references an existing collection.  (As literally
stated — every non-null reference — the claim fails, because the empty
string is falsy in Python and bypasses every validation; see the
counterexample.) -/
theorem c4_referential_integrity (ops : List Op) :
    RefIntegrityNE (runOps emptyState ops) :=
  (stInv_runOps_from ops emptyState stInv_empty).2

/-- Claim C4 counterexample: the single successful API request creating a
prompt with `collection_id = ""` reaches a state storing a prompt whose
non-null `collection_id` references no existing collection. -/
theorem c4_counterexample :
    ¬ RefIntegrity (runOps emptyState [Op.createPromptOp "p1" 0 cexPromptData]) := by
  intro h
  have hstate : runOps emptyState [Op.createPromptOp "p1" 0 cexPromptData]
      = { prompts := [("p1", newPrompt "p1" 0 cexPromptData)], collections := [] } := by
    rfl
  have h2 := h ("p1", newPrompt "p1" 0 cexPromptData)
    (by rw [hstate]; exact List.mem_singleton_self _) "" rfl
  rw [hstate] at h2
  simp [dictGet] at h2

/-- Claim C5: deleting an existing collection succeeds; afterwards every
prompt that referenced it is still stored with `collection_id = none` and
`updated_at` refreshed, and the collection is absent from `GET
/collections/{id}` and `GET /collections`; deleting a missing collection
fails with NotFound. -/
theorem c5_delete_collection (s : StorageState) (cid : String) (now : Nat) (hWF : WF s) :
    (Storage.get_collection s cid = none → delete_collection s cid now = .error .notFound) ∧
    (∀ c, Storage.get_collection s cid = some c →
      ∃ s', delete_collection s cid now = .ok s' ∧
        (∀ k p, dictGet s.prompts k = some p → p.collection_id = some cid →
          dictGet s'.prompts k
            = some { p with collection_id := none, updated_at := now }) ∧
        get_collection s' cid = .error .notFound ∧
        ∀ col ∈ (list_collections s').collections, col.id ≠ cid) := by
  constructor
  · exact fun h => delete_collection_notFound_eq s cid now h
  · intro c hc
    obtain ⟨s', hs', hchar, hcolls, hkeys⟩ := delete_collection_state s cid now c hc hWF
    refine ⟨s', hs', ?_, ?_, ?_⟩
    · intro k p hk hp
      rw [hchar k, hk]
      simp [hp, unlinkP]
    · unfold get_collection Storage.get_collection
      rw [hcolls, dictGet_dictDel_self _ _ hWF.2.1]
    · intro col hcol hcoleq
      obtain ⟨kc, hkc, hkc2⟩ := List.mem_map.1 (by
        have : (list_collections s').collections = s'.collections.map Prod.snd := rfl
        rw [this] at hcol
        exact hcol)
      rw [hcolls] at hkc
      have hkeq : kc.1 = cid := by
        rw [← (WFmap_dictDel Collection.id s.collections cid hWF.2).2 kc hkc, hkc2, hcoleq]
      have hmem : kc.1 ∈ (dictDel s.collections cid).map Prod.fst :=
        List.mem_map_of_mem Prod.fst hkc
      rw [hkeq] at hmem
      have hsome : (dictGet (dictDel s.collections cid) cid).isSome = true :=
        (isSome_dictGet _ _).2 hmem
      rw [dictGet_dictDel_self _ _ hWF.2.1] at hsome
      simp at hsome

theorem c5_delete_collection_witness :
    (Storage.get_collection st1 "c1" = none →
      delete_collection st1 "c1" 20 = .error .notFound) ∧
    (∀ c, Storage.get_collection st1 "c1" = some c →
      ∃ s', delete_collection st1 "c1" 20 = .ok s' ∧
        (∀ k p, dictGet st1.prompts k = some p → p.collection_id = some "c1" →
          dictGet s'.prompts k
            = some { p with collection_id := none, updated_at := 20 }) ∧
        get_collection s' "c1" = .error .notFound ∧
        ∀ col ∈ (list_collections s').collections, col.id ≠ "c1") :=
  c5_delete_collection st1 "c1" 20 ⟨⟨by decide, by decide⟩, by decide, by decide⟩

/-- Create-request body referencing the nonexistent collection "zz". -/
def dzz : PromptCreate :=
  { title := "T", content := "C", description := none, collection_id := some "zz" }

/-- Claim C6 (amended): a create request whose non-empty `collection_id`
does not resolve fails with InvalidReference and leaves the state
unchanged.  (As literally stated — for every unresolved `collection_id` —
the claim fails: the empty string never resolves yet is accepted; see the
counterexample.) -/
theorem c6_invalid_reference (s : StorageState) (newId : String) (now : Nat)
    (d : PromptCreate) (c : String) (hc : d.collection_id = some c) (hcne : c ≠ "")
    (hnores : Storage.get_collection s c = none) :
    create_prompt s newId now d = .error .invalidReference ∧
      runOp s (Op.createPromptOp newId now d) = s := by
  have hcheck : (pyTruthy d.collection_id &&
      !((d.collection_id.bind (fun cid => Storage.get_collection s cid)).isSome)) = true := by
    rw [hc]
    simp [pyTruthy, hcne, hnores]
  refine ⟨create_prompt_err_eq s newId now d hcheck, ?_⟩
  simp only [runOp]
  rw [create_prompt_err_eq s newId now d hcheck]

theorem c6_invalid_reference_witness :
    create_prompt st1 "p9" 3 dzz = .error .invalidReference ∧
      runOp st1 (Op.createPromptOp "p9" 3 dzz) = st1 :=
  c6_invalid_reference st1 "p9" 3 dzz "zz" rfl (by decide) rfl

/-- Claim C6 counterexample: the empty-string `collection_id` does not
resolve to any collection (the registry is empty), yet the create request
succeeds and the prompt is stored. -/
theorem c6_counterexample :
    Storage.get_collection emptyState "" = none ∧
      create_prompt emptyState "p1" 0 cexPromptData
        = .ok (newPrompt "p1" 0 cexPromptData,
            { prompts := [("p1", newPrompt "p1" 0 cexPromptData)], collections := [] }) ∧
      dictGet (runOps emptyState [Op.createPromptOp "p1" 0 cexPromptData]).prompts "p1"
        = some (newPrompt "p1" 0 cexPromptData) :=
  ⟨rfl, rfl, rfl⟩

/-- Patch body that only changes the title, used in witnesses. -/
def dtitle : PromptPatch :=
  { title := some "New", content := none, description := none, collection_id := none }

/-- Patch body that newly sets `collection_id` to the empty string. -/
def pset : PromptPatch :=
  { title := none, content := none, description := none, collection_id := some (some "") }

theorem patch_check_iff (s : StorageState) (ex : Prompt) (d : PromptPatch) :
    ((pyTruthy (applyPatch ex d).collection_id &&
      (!(pyTruthy ex.collection_id) ||
        !(decide (ex.collection_id = (applyPatch ex d).collection_id)))) &&
      !(((applyPatch ex d).collection_id.bind
        (fun cid => Storage.get_collection s cid)).isSome)) = true ↔
    ∃ c, (applyPatch ex d).collection_id = some c ∧ c ≠ "" ∧
      ex.collection_id ≠ some c ∧ Storage.get_collection s c = none := by
  constructor
  · intro hE
    simp only [Bool.and_eq_true] at hE
    obtain ⟨⟨hA1, hA2⟩, hB⟩ := hE
    rcases hm : (applyPatch ex d).collection_id with _ | c
    · rw [hm] at hA1
      simp [pyTruthy] at hA1
    · have hcne : c ≠ "" := by
        rw [hm] at hA1
        simp [pyTruthy] at hA1
        exact hA1
      have hnores : Storage.get_collection s c = none := by
        rw [hm] at hB
        simp at hB
        exact hB
      have hneq : ex.collection_id ≠ some c := by
        intro hexc
        rw [hexc, hm] at hA2
        simp [pyTruthy, hcne] at hA2
      exact ⟨c, rfl, hcne, hneq, hnores⟩
  · rintro ⟨c, hm, hcne, hneq, hnores⟩
    simp only [Bool.and_eq_true]
    refine ⟨⟨?_, ?_⟩, ?_⟩
    · rw [hm]
      simp [pyTruthy, hcne]
    · have hdec : decide (ex.collection_id = (applyPatch ex d).collection_id) = false := by
        rw [hm]
        simp [hneq]
      rw [hdec]
      simp
    · rw [hm]
      simp [hnores]

/-- Claim C7 (amended): with an existing prompt, a PATCH fails with
InvalidReference exactly when the merged `collection_id` is non-null,
non-empty, differs from the prior value (in particular when newly set) and
does not resolve; a patch whose merged `collection_id` equals the prior one
is accepted without re-validating — even if that collection no longer
exists, since the equivalence places no condition on the collections
registry in that case.  (As literally stated — non-null rather than
non-null and non-empty — the claim fails: a patch newly setting
`collection_id = ""` is accepted unchecked; see the counterexample.) -/
theorem c7_patch_validation (s : StorageState) (pid : String) (d : PromptPatch) (now : Nat)
    (ex : Prompt) (hex : Storage.get_prompt s pid = some ex) :
    (patch_prompt s pid d now = .error .invalidReference ↔
      ∃ c, (applyPatch ex d).collection_id = some c ∧ c ≠ "" ∧
        ex.collection_id ≠ some c ∧ Storage.get_collection s c = none) ∧
    ((applyPatch ex d).collection_id = ex.collection_id →
      ∃ r s', patch_prompt s pid d now = .ok (r, s')) := by
  constructor
  · constructor
    · intro herr2
      by_cases hE : ((pyTruthy (applyPatch ex d).collection_id &&
          (!(pyTruthy ex.collection_id) ||
            !(decide (ex.collection_id = (applyPatch ex d).collection_id)))) &&
          !(((applyPatch ex d).collection_id.bind
            (fun cid => Storage.get_collection s cid)).isSome)) = true
      · exact (patch_check_iff s ex d).1 hE
      · rw [patch_prompt_ok_eq s pid d now ex hex hE] at herr2
        cases herr2
    · intro hx
      exact patch_prompt_err_eq s pid d now ex hex ((patch_check_iff s ex d).2 hx)
  · intro hsame
    have hE : ¬ ((pyTruthy (applyPatch ex d).collection_id &&
        (!(pyTruthy ex.collection_id) ||
          !(decide (ex.collection_id = (applyPatch ex d).collection_id)))) &&
        !(((applyPatch ex d).collection_id.bind
          (fun cid => Storage.get_collection s cid)).isSome)) = true := by
      intro hE
      obtain ⟨c, hm, _, hneq, _⟩ := (patch_check_iff s ex d).1 hE
      rw [hsame] at hm
      exact hneq hm
    exact ⟨_, _, patch_prompt_ok_eq s pid d now ex hex hE⟩

theorem c7_patch_validation_witness :
    (patch_prompt st1 "pb" dtitle 8 = .error .invalidReference ↔
      ∃ c, (applyPatch pB dtitle).collection_id = some c ∧ c ≠ "" ∧
        pB.collection_id ≠ some c ∧ Storage.get_collection st1 c = none) ∧
    ((applyPatch pB dtitle).collection_id = pB.collection_id →
      ∃ r s', patch_prompt st1 "pb" dtitle 8 = .ok (r, s')) :=
  c7_patch_validation st1 "pb" dtitle 8 pB rfl

/-- Claim C7 counterexample: the patch newly sets the non-null
`collection_id = some ""`, which resolves to no collection, so per the
claim the validation should run and fail with InvalidReference; the code
accepts the patch. -/
theorem c7_counterexample :
    (applyPatch pA pset).collection_id = some "" ∧
      pA.collection_id = none ∧
      Storage.get_collection st1 "" = none ∧
      patch_prompt st1 "pa" pset 7
        = .ok (patchedPrompt pA pset 7,
            (Storage.update_prompt st1 "pa" (patchedPrompt pA pset 7)).2) :=
  ⟨rfl, rfl, rfl, rfl⟩

theorem leadsIn_nil (n : List Char) (h : leadsIn n [] = true) : n = [] := by
  cases n with
  | nil => rfl
  | cons c cs => simp [leadsIn] at h

theorem occursIn_nil_left (hay : List Char) : occursIn [] hay = true := by
  cases hay with
  | nil => rfl
  | cons d ds => simp [occursIn, leadsIn]

theorem occursIn_nil_needle (n : List Char) (h : occursIn n [] = true) : n = [] :=
  leadsIn_nil n h

/-- Claim C8: `search_prompts` keeps exactly the prompts whose title, or
whose present description, contains the query case-insensitively; and the
`content` field is never consulted (replacing every content leaves the
selection unchanged). -/
theorem c8_search_exact (prompts : List Prompt) (query : String) :
    (∀ p, p ∈ search_prompts prompts query ↔
      p ∈ prompts ∧
        (strIn (strLower query) (strLower p.title) = true ∨
          ∃ dsc, p.description = some dsc ∧
            strIn (strLower query) (strLower dsc) = true)) ∧
    (∀ cnt, search_prompts (prompts.map (fun p : Prompt => { p with content := cnt })) query
      = (search_prompts prompts query).map (fun p : Prompt => { p with content := cnt })) := by
  constructor
  · intro p
    simp only [search_prompts]
    rw [List.mem_filter]
    apply and_congr_right
    intro _
    rcases hdesc : p.description with _ | dsc
    · simp
    · by_cases hd0 : dsc = ""
      · subst hd0
        constructor
        · intro h
          left
          simpa using h
        · rintro (h | ⟨d', hd', h⟩)
          · simp [h]
          · injection hd' with hd'
            subst hd'
            have hq : (strLower query).data = [] := occursIn_nil_needle (strLower query).data h
            have ha : strIn (strLower query) (strLower p.title) = true := by
              unfold strIn
              rw [hq]
              exact occursIn_nil_left _
            simp [ha]
      · simp [hd0]
  · intro cnt
    simp only [search_prompts]
    rw [List.filter_map]
    exact congrArg (List.map (fun p : Prompt => { p with content := cnt }))
      (List.filter_congr (fun a _ => rfl))

/-- The body-validation rules pydantic enforces on `PromptCreate`
(title 1–200 chars, content at least 1 char, description at most 500). -/
def PromptCreate.valid (d : PromptCreate) : Bool :=
  decide (1 ≤ d.title.length) && decide (d.title.length ≤ 200) &&
  decide (1 ≤ d.content.length) &&
  (match d.description with
   | none => true
   | some de => decide (de.length ≤ 500))

/-- Claim C9: after a successful create, getting the returned record's id
returns the identical record, timestamps included. -/
theorem c9_roundtrip (s : StorageState) (newId : String) (now : Nat) (d : PromptCreate)
    (_hvalid : d.valid = true) (r : Prompt) (s' : StorageState)
    (h : create_prompt s newId now d = .ok (r, s')) :
    get_prompt s' r.id = .ok r := by
  by_cases hcheck : (pyTruthy d.collection_id &&
      !((d.collection_id.bind (fun cid => Storage.get_collection s cid)).isSome)) = true
  · rw [create_prompt_err_eq s newId now d hcheck] at h
    cases h
  · rw [create_prompt_ok_eq s newId now d hcheck] at h
    injection h with h1
    injection h1 with hr hs
    subst hr
    subst hs
    unfold get_prompt Storage.get_prompt
    rw [show (newPrompt newId now d).id = newId from rfl, dictGet_dictSet_self]

theorem c9_roundtrip_witness :
    get_prompt { prompts := [("p1", newPrompt "p1" 5 dplain)], collections := [] }
      (newPrompt "p1" 5 dplain).id = .ok (newPrompt "p1" 5 dplain) :=
  c9_roundtrip emptyState "p1" 5 dplain (by decide) (newPrompt "p1" 5 dplain)
    { prompts := [("p1", newPrompt "p1" 5 dplain)], collections := [] } rfl

/-- Patch body that explicitly sets `collection_id` to null. -/
def dunlink : PromptPatch :=
  { title := none, content := none, description := none, collection_id := some none }

/-- Claim C10: a patch that explicitly sets `collection_id` to null on a
prompt whose `collection_id` is non-null succeeds — with no condition on the
collections registry, i.e. without any collection lookup — and stores the
prompt unlinked with `updated_at` refreshed; fields absent from the body
are unchanged. -/
theorem c10_patch_unlink (s : StorageState) (pid : String) (d : PromptPatch) (now : Nat)
    (ex : Prompt) (c0 : String) (hex : Storage.get_prompt s pid = some ex)
    (_hexc : ex.collection_id = some c0) (hd : d.collection_id = some none) :
    ∃ s', patch_prompt s pid d now = .ok (patchedPrompt ex d now, s') ∧
      (patchedPrompt ex d now).collection_id = none ∧
      (patchedPrompt ex d now).updated_at = now ∧
      (patchedPrompt ex d now).id = ex.id ∧
      (patchedPrompt ex d now).created_at = ex.created_at ∧
      (d.title = none → (patchedPrompt ex d now).title = ex.title) ∧
      (d.content = none → (patchedPrompt ex d now).content = ex.content) ∧
      (d.description = none → (patchedPrompt ex d now).description = ex.description) ∧
      Storage.get_prompt s' pid = some (patchedPrompt ex d now) := by
  have hm : (applyPatch ex d).collection_id = none := by
    simp [applyPatch, hd]
  have hE : ¬ ((pyTruthy (applyPatch ex d).collection_id &&
      (!(pyTruthy ex.collection_id) ||
        !(decide (ex.collection_id = (applyPatch ex d).collection_id)))) &&
      !(((applyPatch ex d).collection_id.bind
        (fun cid => Storage.get_collection s cid)).isSome)) = true := by
    intro hE
    simp only [Bool.and_eq_true] at hE
    have h1 := hE.1.1
    rw [hm] at h1
    simp [pyTruthy] at h1
  have hpresent : (dictGet s.prompts pid).isSome = true := by
    have h1 : dictGet s.prompts pid = some ex := hex
    rw [h1]
    rfl
  refine ⟨_, patch_prompt_ok_eq s pid d now ex hex hE, hm, rfl, rfl, rfl, ?_, ?_, ?_, ?_⟩
  · intro ht
    simp [patchedPrompt, applyPatch, ht]
  · intro hc
    simp [patchedPrompt, applyPatch, hc]
  · intro hds
    simp [patchedPrompt, applyPatch, hds]
  · exact update_prompt_get_self s pid _ hpresent

theorem c10_patch_unlink_witness :
    ∃ s', patch_prompt st1 "pb" dunlink 9 = .ok (patchedPrompt pB dunlink 9, s') ∧
      (patchedPrompt pB dunlink 9).collection_id = none ∧
      (patchedPrompt pB dunlink 9).updated_at = 9 ∧
      (patchedPrompt pB dunlink 9).id = pB.id ∧
      (patchedPrompt pB dunlink 9).created_at = pB.created_at ∧
      (dunlink.title = none → (patchedPrompt pB dunlink 9).title = pB.title) ∧
      (dunlink.content = none → (patchedPrompt pB dunlink 9).content = pB.content) ∧
      (dunlink.description = none →
        (patchedPrompt pB dunlink 9).description = pB.description) ∧
      Storage.get_prompt s' "pb" = some (patchedPrompt pB dunlink 9) :=
  c10_patch_unlink st1 "pb" dunlink 9 pB "c1" rfl rfl rfl
